import Mathlib

/-!
Verification of the Live session layer of a generative-AI client SDK.

The development shallowly embeds the two reviewed source files:
* the Live session module (class `Live`, class `Session`, the free function
  `handleWebSocketMessage` and the module-level constant
  `FUNCTION_RESPONSE_REQUIRES_ID`), and
* the Node client entry point (`GoogleGenAI` constructor and its
  environment-variable helpers).

JavaScript runtime values that flow into `JSON.stringify` are modelled by the
inductive type `JValue`; JavaScript objects are field lists in insertion
order, and a property whose value is `undefined` is modelled by the absence
of the field (mirroring both the `x !== undefined` guards of the source and
the fact that `JSON.stringify` drops `undefined`-valued properties).
External collaborators that the reviewed source only calls (the transformer
`t.tModel`, the converter module, resolution of callable tools) are taken as
parameters of the embedding, so every theorem quantifies over them.
-/

namespace JsGenai

/-- A JavaScript value as relevant to the live module: `null`, booleans,
strings, numbers, arrays and plain objects (field lists in insertion
order). -/
inductive JValue where
  | jnull : JValue
  | jbool (b : Bool) : JValue
  | jstr (s : String) : JValue
  | jnum (n : Int) : JValue
  | jarr (elems : List JValue) : JValue
  | jobj (fields : List (String × JValue)) : JValue

/-- The JavaScript `typeof` operator on a `JValue` (note `typeof null` and
`typeof` of an array are both the string `"object"`). -/
def jsTypeof : JValue → String
  | .jnull => "object"
  | .jbool _ => "boolean"
  | .jstr _ => "string"
  | .jnum _ => "number"
  | .jarr _ => "object"
  | .jobj _ => "object"

/-- The JavaScript `key in value` test: property presence on a plain object.
(Arrays only carry index properties, and primitives none, in the uses the
source makes of the operator.) -/
def hasKey (v : JValue) (key : String) : Bool :=
  match v with
  | .jobj fields => fields.any (fun kv => kv.1 == key)
  | _ => false

/-- Quote a string for JSON output. -/
def jsonQuote (s : String) : String :=
  "\"" ++ s ++ "\""

mutual

/-- The `JSON.stringify` serialization of a `JValue`. -/
def stringify : JValue → String
  | .jnull => "null"
  | .jbool b => cond b "true" "false"
  | .jstr s => jsonQuote s
  | .jnum n => toString n
  | .jarr elems => "[" ++ stringifyElems elems ++ "]"
  | .jobj fields => "\x7b" ++ stringifyFields fields ++ "\x7d"

/-- Comma-separated serialization of array elements. -/
def stringifyElems : List JValue → String
  | [] => ""
  | [v] => stringify v
  | v :: rest => stringify v ++ "," ++ stringifyElems rest

/-- Comma-separated serialization of object fields. -/
def stringifyFields : List (String × JValue) → String
  | [] => ""
  | [(k, v)] => jsonQuote k ++ ":" ++ stringify v
  | (k, v) :: rest => jsonQuote k ++ ":" ++ stringify v ++ "," ++ stringifyFields rest

end

/-- The module-level constant of the live module: exact text of the
id-required error. -/
def FUNCTION_RESPONSE_REQUIRES_ID : String :=
  "FunctionResponse request must have an `id` field from the response of a ToolCall.FunctionalCalls in Google AI."

/-- The slice of `ApiClient` state the live module reads: backend variant
flag and connection metadata. -/
structure ApiClient where
  vertexai : Bool
  apiKey : Option String
  project : String
  location : String
  apiVersion : String
  websocketBaseUrl : String

/-- The JavaScript strict equality test `v === null`. -/
def JValue.isNull : JValue → Bool
  | .jnull => true
  | _ => false

/-- Validation loop body of `Session.tLiveClienttToolResponse`: walk the
function responses in order; a malformed element (not an object, `null`, or
missing `name`/`response`) raises the parse error, and on the non-Vertex
variant an element without `id` raises `FUNCTION_RESPONSE_REQUIRES_ID`. -/
def validateFunctionResponses (apiClient : ApiClient) : List JValue → Except String Unit
  | [] => .ok ()
  | fr :: rest =>
    if jsTypeof fr != "object" || fr.isNull || !hasKey fr "name" || !hasKey fr "response" then
      .error ("Could not parse function response, type \x27" ++ jsTypeof fr ++ "\x27.")
    else if !apiClient.vertexai && !hasKey fr "id" then
      .error FUNCTION_RESPONSE_REQUIRES_ID
    else
      validateFunctionResponses apiClient rest

/-- Normalization step of `Session.tLiveClienttToolResponse`: an array input
is taken as-is, any other single value is wrapped in a singleton list. -/
def normalizeFunctionResponses : JValue → List JValue
  | .jarr elems => elems
  | v => [v]

/-- `Session.tLiveClienttToolResponse`: the input is `none` when
`params.functionResponses` is `null`/`undefined`; otherwise it is the given
JavaScript value (a single response or an array of responses). Returns the
wire message `\x7btoolResponse: \x7bfunctionResponses\x7d\x7d` or the thrown error
message. -/
def tLiveClienttToolResponse (apiClient : ApiClient) (functionResponses : Option JValue) :
    Except String JValue :=
  match functionResponses with
  | none => .error "functionResponses is required."
  | some v =>
    let frs := normalizeFunctionResponses v
    if frs.length = 0 then
      .error "functionResponses is required."
    else
      match validateFunctionResponses apiClient frs with
      | .error e => .error e
      | .ok _ =>
        .ok (.jobj [("toolResponse", .jobj [("functionResponses", .jarr frs)])])

/-- `Session.sendToolResponse`: guards `params.functionResponses == null`,
then delegates to `tLiveClienttToolResponse` and hands the serialized frame
to `conn.send`. `Except.ok s` means the single frame `s` was sent;
`Except.error e` means the call threw `e` and nothing was sent. -/
def sendToolResponse (apiClient : ApiClient) (functionResponses : Option JValue) :
    Except String String :=
  match functionResponses with
  | none => .error "Tool response parameters are required."
  | some v =>
    match tLiveClienttToolResponse apiClient (some v) with
    | .error e => .error e
    | .ok msg => .ok (stringify msg)

/-- Parameters of `Session.sendClientContent`. `turns` is `none` when the
property is absent/`undefined` (a JavaScript `null` is `some .jnull`).
`turnComplete` distinguishes an absent property (outer `none`) from a
property present with value `undefined` (inner `none`), because the object
spread used for defaulting treats the two differently. -/
structure LiveSendClientContentParameters where
  turns : Option JValue
  turnComplete : Option (Option Bool)

/-- The module-level default object `\x7bturnComplete: true\x7d` (name kept with
the source's spelling). -/
def defaultLiveSendClientContentParamerters : LiveSendClientContentParameters :=
  { turns := none, turnComplete := some (some true) }

/-- The spread `\x7b...defaults, ...params\x7d` at the top of
`Session.sendClientContent`: a property present on `params` (even with value
`undefined`) overrides the default, an absent property falls back to it.
Calling `sendClientContent()` with no argument spreads `undefined`, which
contributes nothing. -/
def spreadClientContentParams (params : Option LiveSendClientContentParameters) :
    LiveSendClientContentParameters :=
  match params with
  | none => defaultLiveSendClientContentParamerters
  | some p =>
    { turns := p.turns,
      turnComplete :=
        match p.turnComplete with
        | none => defaultLiveSendClientContentParamerters.turnComplete
        | some v => some v }

/-- External collaborators of the client-content path: the shared content
normalization `t.tContents` (which may throw) and the per-variant content
encoders from the converter module. Individual contents are opaque
JavaScript values. -/
structure LiveConverters where
  tContents : JValue → Except Unit (List JValue)
  contentToMldev : JValue → JValue
  contentToVertex : JValue → JValue

/-- The `turnComplete` property of the `clientContent` object literal:
present with a boolean value it is serialized, while an absent or
`undefined`-valued property is dropped by `JSON.stringify`. -/
def turnCompleteField : Option (Option Bool) → List (String × JValue)
  | some (some b) => [("turnComplete", .jbool b)]
  | _ => []

/-- `Session.tLiveClientContent`: when `turns` is neither `null` nor
`undefined`, normalize and variant-encode them (any exception becomes the
quoted parse error); otherwise the message carries only `turnComplete`. -/
def tLiveClientContent (conv : LiveConverters) (apiClient : ApiClient)
    (params : LiveSendClientContentParameters) : Except String JValue :=
  match params.turns with
  | some turns =>
    if turns.isNull then
      .ok (.jobj [("clientContent", .jobj (turnCompleteField params.turnComplete))])
    else
      match conv.tContents turns with
      | .error _ =>
        .error ("Failed to parse client content \"turns\", type: \x27" ++ jsTypeof turns ++ "\x27")
      | .ok contents =>
        let contents := contents.map (fun item =>
          if apiClient.vertexai then conv.contentToVertex item else conv.contentToMldev item)
        .ok (.jobj [("clientContent",
          .jobj ([("turns", .jarr contents)] ++ turnCompleteField params.turnComplete))])
  | none =>
    .ok (.jobj [("clientContent", .jobj (turnCompleteField params.turnComplete))])

/-- `Session.sendClientContent`: apply the defaults spread, translate via
`tLiveClientContent`, and hand the serialized frame to `conn.send`.
`Except.ok s` means the single frame `s` was sent. -/
def sendClientContent (conv : LiveConverters) (apiClient : ApiClient)
    (params : Option LiveSendClientContentParameters) : Except String String :=
  let merged := spreadClientContentParams params
  match tLiveClientContent conv apiClient merged with
  | .error e => .error e
  | .ok msg => .ok (stringify msg)

/-- A configured tool: `Live.isCallableTool` probes for a `callTool`
function property, so the union is modelled as a tagged variant. For a
callable tool the payload is the static declaration its `tool()` method
resolves to; for a static tool it is the tool itself. -/
inductive ToolUnion where
  | staticTool (tool : JValue) : ToolUnion
  | callableTool (resolvedTool : JValue) : ToolUnion

/-- The tool-materialization loop body of `Live.connect`: a callable tool is
resolved by awaiting its `tool()` method, a static tool passes through
unchanged. -/
def convertTool : ToolUnion → JValue
  | .callableTool resolvedTool => resolvedTool
  | .staticTool tool => tool

/-- The slice of `LiveConnectConfig` that `Live.connect` reads or writes.
Each field is `none` when the property is absent/`undefined`. -/
structure LiveConnectConfig where
  responseModalities : Option (List String)
  tools : Option (List ToolUnion)
  generationConfig : Option JValue

/-- `LiveConnectParameters`: model name, optional config, and the callback
set (opaque to the connect logic, carried as an identifier). -/
structure LiveConnectParameters where
  model : String
  config : Option LiveConnectConfig
  callbacks : Nat

/-- JavaScript truthiness of an optional string: `undefined`/`null` and the
empty string are falsy. -/
def jsTruthyStr : Option String → Bool
  | none => false
  | some s => s != ""

/-- JavaScript `String.prototype.startsWith`, modelled on the character
sequences of the strings. -/
def jsStartsWith (s p : String) : Bool :=
  p.data.isPrefixOf s.data

/-- The connection URL built by `Live.connect` on the non-Vertex branch:
with a truthy API key, the method / query-parameter pair switches to
`BidiGenerateContentConstrained` / `access_token` exactly when the key has
prefix `auth_tokens/`; without a key, the bare websocket base URL. -/
def mldevConnectUrl (apiClient : ApiClient) : String :=
  if jsTruthyStr apiClient.apiKey then
    let apiKey := apiClient.apiKey.getD ""
    let method :=
      if jsStartsWith apiKey "auth_tokens/" then "BidiGenerateContentConstrained"
      else "BidiGenerateContent"
    let keyName := if jsStartsWith apiKey "auth_tokens/" then "access_token" else "key"
    apiClient.websocketBaseUrl ++ "/ws/google.ai.generativelanguage." ++ apiClient.apiVersion
      ++ ".GenerativeService." ++ method ++ "?" ++ keyName ++ "=" ++ apiKey
  else
    apiClient.websocketBaseUrl

/-- The connection URL built by `Live.connect` on the Vertex branch. -/
def vertexConnectUrl (apiClient : ApiClient) : String :=
  apiClient.websocketBaseUrl ++ "/ws/google.cloud.aiplatform." ++ apiClient.apiVersion
    ++ ".LlmBidiService/BidiGenerateContent"

/-- The connection URL used by `Live.connect` for either backend variant. -/
def connectUrl (apiClient : ApiClient) : String :=
  if apiClient.vertexai then vertexConnectUrl apiClient else mldevConnectUrl apiClient

/-- Observable actions of `Live.connect`, in program order: the awaited
auth-header injection (Vertex only), creation of the websocket with its URL,
`conn.connect()`, the suspension awaiting the transport's open signal,
each `conn.send` with the exact frame text, and returning the `Session`. -/
inductive ConnectEvent where
  | addAuthHeaders : ConnectEvent
  | connCreate (url : String) : ConnectEvent
  | connConnect : ConnectEvent
  | awaitOpen : ConnectEvent
  | send (frame : String) : ConnectEvent
  | retSession : ConnectEvent

/-- Result of the `Live.connect` embedding: the ordered action trace, the
caller's `params` object as left after the in-place mutations, the
`liveConnectParameters` handed to the setup-envelope converter, and the
serialized setup frame. -/
structure ConnectResult where
  trace : List ConnectEvent
  finalParams : LiveConnectParameters
  resolvedParams : LiveConnectParameters
  setupFrame : String

/-- `Live.connect`. The external collaborators are parameters: `tModel` is
the shared model-name transform `t.tModel`, and `convVertex` / `convMldev`
are `liveConnectParametersToVertex` / `liveConnectParametersToMldev` from
the converter module, producing the setup envelope as an object field list.
The steps mirror the source in order: build the URL (injecting auth headers
for Vertex), create and connect the websocket, await the open signal,
transform the model name (qualifying a bare `publishers/` name with project
and location on Vertex), default `responseModalities` to `["AUDIO"]` on
Vertex when the caller set none (mutating `params` in place), materialize
the tools (overwriting `params.config.tools` when at least one tool is
configured), build the setup envelope, delete its top-level `config` key,
send it, and return the session. -/
def connectModel (apiClient : ApiClient)
    (tModel : ApiClient → String → String)
    (convVertex : ApiClient → LiveConnectParameters → List (String × JValue))
    (convMldev : ApiClient → LiveConnectParameters → List (String × JValue))
    (params : LiveConnectParameters) : ConnectResult :=
  let preOpen : List ConnectEvent :=
    (if apiClient.vertexai then [ConnectEvent.addAuthHeaders] else [])
      ++ [ConnectEvent.connCreate (connectUrl apiClient), ConnectEvent.connConnect,
          ConnectEvent.awaitOpen]
  let transformed := tModel apiClient params.model
  let transformedModel :=
    if apiClient.vertexai && jsStartsWith transformed "publishers/" then
      "projects/" ++ apiClient.project ++ "/locations/" ++ apiClient.location ++ "/"
        ++ transformed
    else transformed
  let params1 :=
    if apiClient.vertexai
        && (params.config.bind (fun c => c.responseModalities)).isNone then
      match params.config with
      | none =>
        let cfg : LiveConnectConfig :=
          { responseModalities := some ["AUDIO"], tools := none, generationConfig := none }
        { params with config := some cfg }
      | some c =>
        let cfg : LiveConnectConfig := { c with responseModalities := some ["AUDIO"] }
        { params with config := some cfg }
    else params
  let inputTools := (params1.config.bind (fun c => c.tools)).getD []
  let convertedTools := inputTools.map convertTool
  let params2 :=
    if convertedTools.length > 0 then
      match params1.config with
      | some c =>
        let cfg : LiveConnectConfig :=
          { c with tools := some (convertedTools.map ToolUnion.staticTool) }
        { params1 with config := some cfg }
      | none => params1
    else params1
  let liveConnectParameters : LiveConnectParameters :=
    { model := transformedModel, config := params2.config, callbacks := params2.callbacks }
  let clientMessage :=
    if apiClient.vertexai then convVertex apiClient liveConnectParameters
    else convMldev apiClient liveConnectParameters
  let setupFrame := stringify (.jobj (clientMessage.filter (fun kv => kv.1 != "config")))
  { trace := preOpen ++ [ConnectEvent.send setupFrame, ConnectEvent.retSession],
    finalParams := params2,
    resolvedParams := liveConnectParameters,
    setupFrame := setupFrame }

/-- An inbound websocket payload as discriminated by
`handleWebSocketMessage`: already text, an `ArrayBuffer` (decoded to text
synchronously), or a `Blob` (whose text must be awaited). -/
inductive Payload where
  | textData (s : String) : Payload
  | arrayBufferData (s : String) : Payload
  | blobData (s : String) : Payload

/-- Whether the payload takes the `Blob` branch of `handleWebSocketMessage`,
the only branch that suspends. -/
def Payload.isBlob : Payload → Bool
  | .blobData _ => true
  | _ => false

/-- Scheduler events of the inbound dispatch: the transport delivers message
`i` (messages are delivered in index order), or the awaited `Blob.text()`
read for message `i` completes. -/
inductive WsEvent where
  | deliver (i : Nat) : WsEvent
  | resolveBlob (i : Nat) : WsEvent

/-- Dispatch state: blob reads still in flight, and the indices with which
the user-registered `onmessage` callback has been invoked, in order. -/
structure DispatchState where
  pending : List Nat
  callbackLog : List Nat

/-- One step of the inbound dispatch. The `Live.connect` websocket callback
wraps `handleWebSocketMessage` in a discarded promise
(`void handleWebSocketMessage(...)`), so for a text or `ArrayBuffer`
payload the whole handler body runs synchronously inside the delivery and
the user callback fires immediately, while for a `Blob` payload the handler
suspends at `await event.data.text()` and the user callback fires only at
the later completion of that read. -/
def dispatchStep (payloadOf : Nat → Payload) (s : DispatchState) (e : WsEvent) :
    DispatchState :=
  match e with
  | .deliver i =>
    if (payloadOf i).isBlob then
      { s with pending := s.pending ++ [i] }
    else
      { s with callbackLog := s.callbackLog ++ [i] }
  | .resolveBlob i =>
    if i ∈ s.pending then
      { pending := s.pending.erase i, callbackLog := s.callbackLog ++ [i] }
    else s

/-- Run the inbound dispatch over a schedule of events, starting with no
pending reads and no callback invocations. -/
def dispatchRun (payloadOf : Nat → Payload) (events : List WsEvent) : DispatchState :=
  events.foldl (dispatchStep payloadOf) ⟨[], []⟩

/-- The message indices delivered by the transport, in delivery order. -/
def deliveredIndices (events : List WsEvent) : List Nat :=
  events.filterMap (fun e =>
    match e with
    | .deliver i => some i
    | .resolveBlob _ => none)

/-- Constructor options of `GoogleGenAI` as the constructor reads them; each
`Option` field is `none` when the property is absent/`undefined`.
`hasGoogleAuthCredentials` models the truthiness of
`options.googleAuthOptions?.credentials`. -/
structure GoogleGenAIOptions where
  vertexai : Option Bool
  apiKey : Option String
  project : Option String
  location : Option String
  apiUrl : Option String
  apiVersion : Option String
  hasGoogleAuthCredentials : Bool

/-- The environment variables the `GoogleGenAI` constructor consults, each
already trimmed as `getEnv` does (`none` = unset). -/
structure EnvVars where
  useVertexai : Option String
  googleApiKey : Option String
  geminiApiKey : Option String
  googleBaseApiUrl : Option String
  geminiBaseApiUrl : Option String
  cloudProject : Option String
  cloudLocation : Option String

/-- `stringToBoolean` composed with `getEnv`: an unset variable is `false`,
otherwise case-insensitive comparison with `"true"`. -/
def stringToBoolean : Option String → Bool
  | none => false
  | some s => s.toLower == "true"

/-- `getApiKeyFromEnv`: `GOOGLE_API_KEY || GEMINI_API_KEY` (JavaScript `||`
returns the second operand verbatim when the first is falsy). -/
def getApiKeyFromEnv (env : EnvVars) : Option String :=
  if jsTruthyStr env.googleApiKey then env.googleApiKey else env.geminiApiKey

/-- `getBaseApiUrlFromEnv`: `GOOGLE_BASE_API_URL || GEMINI_BASE_API_URL`. -/
def getBaseApiUrlFromEnv (env : EnvVars) : Option String :=
  if jsTruthyStr env.googleBaseApiUrl then env.googleBaseApiUrl else env.geminiBaseApiUrl

/-- The configuration a successfully constructed `GoogleGenAI` resolves and
passes to its `ApiClient`. -/
structure ResolvedClient where
  vertexai : Bool
  apiKey : Option String
  project : Option String
  location : Option String
  apiUrl : Option String
  apiVersion : Option String

/-- The `GoogleGenAI` constructor: the mutual-exclusion validation of
explicit project/location against an explicit API key throws first;
otherwise options are resolved against the environment, including the
Vertex express-mode precedence chain, and a client is produced.
`Except.error` means the constructor threw and no client object exists. -/
def GoogleGenAI.construct (options : GoogleGenAIOptions) (env : EnvVars) :
    Except String ResolvedClient :=
  if (jsTruthyStr options.project || jsTruthyStr options.location)
      && jsTruthyStr options.apiKey then
    .error "Project/location and API key are mutually exclusive in the client initializer."
  else
    let vertexai := options.vertexai.getD (stringToBoolean env.useVertexai)
    let envApiBaseUrl := getBaseApiUrlFromEnv env
    let envApiKey := getApiKeyFromEnv env
    let envProject := env.cloudProject
    let envLocation := env.cloudLocation
    let apiUrl := options.apiUrl <|> envApiBaseUrl
    let apiKey0 := options.apiKey <|> envApiKey
    let project0 := options.project <|> envProject
    let location0 := options.location <|> envLocation
    let resolved :=
      if options.vertexai.getD false then
        let apiKey1 := if options.hasGoogleAuthCredentials then none else apiKey0
        if (jsTruthyStr envProject || jsTruthyStr envLocation)
            && jsTruthyStr options.apiKey then
          (apiKey1, (none : Option String), (none : Option String))
        else if (jsTruthyStr options.project || jsTruthyStr options.location)
            && jsTruthyStr envApiKey then
          ((none : Option String), project0, location0)
        else if (jsTruthyStr envProject || jsTruthyStr envLocation)
            && jsTruthyStr envApiKey then
          ((none : Option String), project0, location0)
        else
          (apiKey1, project0, location0)
      else
        (apiKey0, project0, location0)
    .ok { vertexai := vertexai, apiKey := resolved.1, project := resolved.2.1,
          location := resolved.2.2, apiUrl := apiUrl, apiVersion := options.apiVersion }

/-- A concrete direct-API (non-Vertex) client used to instantiate
theorems. -/
def sampleMldevClient : ApiClient :=
  { vertexai := false, apiKey := some "k", project := "proj", location := "loc",
    apiVersion := "v1alpha", websocketBaseUrl := "wss://base" }

/-- A concrete managed-cloud (Vertex) client used to instantiate theorems. -/
def sampleVertexClient : ApiClient :=
  { vertexai := true, apiKey := none, project := "proj", location := "loc",
    apiVersion := "v1beta1", websocketBaseUrl := "wss://base" }

/-- A function response carrying a key never has a primitive or `null`
shape: property presence forces the plain-object case, whose `typeof` is
`"object"` and which is not `null`. -/
lemma jsTypeof_of_hasKey {fr : JValue} {k : String} (h : hasKey fr k = true) :
    jsTypeof fr = "object" ∧ fr.isNull = false := by
  cases fr <;> simp_all [hasKey, jsTypeof, JValue.isNull]

/-- On the Vertex variant the validation loop accepts any list whose
elements all carry `name` and `response`. -/
lemma validateFunctionResponses_vertex_ok (apiClient : ApiClient)
    (hv : apiClient.vertexai = true) :
    ∀ l : List JValue,
      (∀ fr ∈ l, hasKey fr "name" = true ∧ hasKey fr "response" = true) →
      validateFunctionResponses apiClient l = .ok () := by
  intro l
  induction l with
  | nil => intro _; rfl
  | cons fr rest ih =>
    intro h
    obtain ⟨hn, hr⟩ := h fr (List.mem_cons_self _ _)
    obtain ⟨ht, hnull⟩ := jsTypeof_of_hasKey hn
    rw [validateFunctionResponses]
    simp only [ht, hnull, hn, hr, hv]
    simp only [bne_self_eq_false, Bool.not_true, Bool.or_self, Bool.or_false,
      Bool.false_or, if_false, Bool.false_and, Bool.and_false]
    exact ih (fun g hg => h g (List.mem_cons_of_mem _ hg))

/-- On the non-Vertex variant the validation loop rejects, with the
id-required message, any list whose elements all carry `name` and
`response` but where some element lacks `id`. -/
lemma validateFunctionResponses_missing_id (apiClient : ApiClient)
    (hm : apiClient.vertexai = false) :
    ∀ l : List JValue,
      (∀ fr ∈ l, hasKey fr "name" = true ∧ hasKey fr "response" = true) →
      (∃ fr ∈ l, hasKey fr "id" = false) →
      validateFunctionResponses apiClient l = .error FUNCTION_RESPONSE_REQUIRES_ID := by
  intro l
  induction l with
  | nil =>
    rintro _ ⟨fr, hmem, _⟩
    cases hmem
  | cons fr rest ih =>
    intro h hex
    obtain ⟨hn, hr⟩ := h fr (List.mem_cons_self _ _)
    obtain ⟨ht, hnull⟩ := jsTypeof_of_hasKey hn
    rw [validateFunctionResponses]
    by_cases hid : hasKey fr "id" = true
    · have hex' : ∃ g ∈ rest, hasKey g "id" = false := by
        rcases hex with ⟨g, hg, hgid⟩
        rcases List.mem_cons.mp hg with rfl | hg'
        · rw [hid] at hgid; cases hgid
        · exact ⟨g, hg', hgid⟩
      simp only [ht, hnull, hn, hr, hm, hid]
      simp only [bne_self_eq_false, Bool.not_true, Bool.or_self, Bool.or_false,
        Bool.false_or, if_false, Bool.not_false, Bool.and_false]
      exact ih (fun g hg => h g (List.mem_cons_of_mem _ hg)) hex'
    · have hid' : hasKey fr "id" = false := by
        simpa using hid
      simp [ht, hnull, hn, hr, hm, hid']

/-- A nonempty normalized response list when some element is present. -/
lemma normalize_length_ne_zero {v : JValue} {fr : JValue}
    (h : fr ∈ normalizeFunctionResponses v) :
    (normalizeFunctionResponses v).length ≠ 0 := by
  have := List.length_pos_of_mem h
  omega

/-- The URLs of the `connCreate` actions in a connect trace, in order. -/
def createdUrls (trace : List ConnectEvent) : List String :=
  trace.filterMap (fun e =>
    match e with
    | .connCreate u => some u
    | _ => none)

/-- Auxiliary induction for the inbound dispatch: starting from a state
with no pending blob reads, a schedule whose delivered payloads are never
blobs appends exactly the delivered indices to the callback log. -/
lemma dispatch_foldl_no_blob (payloadOf : Nat → Payload) :
    ∀ (events : List WsEvent) (s : DispatchState),
      s.pending = [] →
      (∀ i, WsEvent.deliver i ∈ events → (payloadOf i).isBlob = false) →
      (events.foldl (dispatchStep payloadOf) s).callbackLog
        = s.callbackLog ++ deliveredIndices events := by
  intro events
  induction events with
  | nil => intro s _ _; simp [deliveredIndices]
  | cons e rest ih =>
    intro s hs h
    cases e with
    | deliver i =>
      have hb : (payloadOf i).isBlob = false := h i (List.mem_cons_self _ _)
      have step : dispatchStep payloadOf s (.deliver i)
          = { s with callbackLog := s.callbackLog ++ [i] } := by
        simp [dispatchStep, hb]
      rw [List.foldl_cons, step,
        ih _ (by simpa using hs) (fun j hj => h j (List.mem_cons_of_mem _ hj))]
      simp [deliveredIndices]
    | resolveBlob i =>
      have step : dispatchStep payloadOf s (.resolveBlob i) = s := by
        simp [dispatchStep, hs]
      rw [List.foldl_cons, step,
        ih _ hs (fun j hj => h j (List.mem_cons_of_mem _ hj))]
      simp [deliveredIndices]

/-- C1 (counterexample): the claim as stated fails. An element that lacks
`id` but also lacks `name` makes the direct-API call throw the generic
parse error, not the id-required message, and the same input does not
succeed on the Vertex variant either — it throws the same parse error. -/
theorem sendToolResponse_missing_id_claim_counterexample :
    sendToolResponse sampleMldevClient (some (.jarr [.jobj [("response", .jobj [])]]))
      = .error "Could not parse function response, type \x27object\x27." ∧
    "Could not parse function response, type \x27object\x27." ≠ FUNCTION_RESPONSE_REQUIRES_ID ∧
    sendToolResponse sampleVertexClient (some (.jarr [.jobj [("response", .jobj [])]]))
      = .error "Could not parse function response, type \x27object\x27." := by
  refine ⟨by rfl, by decide, by rfl⟩

/-- C1 (amended): for a `sendToolResponse` input whose normalized elements
all carry `name` and `response` and at least one of which lacks `id`, the
direct-API variant throws exactly `FUNCTION_RESPONSE_REQUIRES_ID` and sends
nothing, while the Vertex variant sends the
`toolResponse.functionResponses` frame. -/
theorem sendToolResponse_id_policy (apiClient : ApiClient) (v : JValue)
    (hwf : ∀ fr ∈ normalizeFunctionResponses v,
      hasKey fr "name" = true ∧ hasKey fr "response" = true)
    (hmiss : ∃ fr ∈ normalizeFunctionResponses v, hasKey fr "id" = false) :
    (apiClient.vertexai = false →
      sendToolResponse apiClient (some v) = .error FUNCTION_RESPONSE_REQUIRES_ID) ∧
    (apiClient.vertexai = true →
      sendToolResponse apiClient (some v) = .ok (stringify (.jobj [("toolResponse",
        .jobj [("functionResponses", .jarr (normalizeFunctionResponses v))])]))) := by
  have hne : (normalizeFunctionResponses v).length ≠ 0 := by
    rcases hmiss with ⟨fr, hmem, _⟩
    exact normalize_length_ne_zero hmem
  constructor
  · intro hm
    simp [sendToolResponse, tLiveClienttToolResponse, hne,
      validateFunctionResponses_missing_id apiClient hm _ hwf hmiss]
  · intro hv
    simp [sendToolResponse, tLiveClienttToolResponse, hne,
      validateFunctionResponses_vertex_ok apiClient hv _ hwf]

/-- C1 (witness): a well-formed response that lacks `id` triggers the exact
id-required error on the direct-API client and is sent on the Vertex
client. -/
theorem sendToolResponse_id_policy_witness :
    sendToolResponse sampleMldevClient
        (some (.jarr [.jobj [("name", .jstr "f"), ("response", .jobj [])]]))
      = .error FUNCTION_RESPONSE_REQUIRES_ID ∧
    sendToolResponse sampleVertexClient
        (some (.jarr [.jobj [("name", .jstr "f"), ("response", .jobj [])]]))
      = .ok (stringify (.jobj [("toolResponse", .jobj [("functionResponses",
          .jarr [.jobj [("name", .jstr "f"), ("response", .jobj [])]])])])) :=
  ⟨(sendToolResponse_id_policy sampleMldevClient
      (.jarr [.jobj [("name", .jstr "f"), ("response", .jobj [])]])
      (by decide) (by decide)).1 rfl,
   (sendToolResponse_id_policy sampleVertexClient
      (.jarr [.jobj [("name", .jstr "f"), ("response", .jobj [])]])
      (by decide) (by decide)).2 rfl⟩

/-- C2: on either variant, `sendToolResponse` with a `null`/`undefined`
input or with an empty sequence throws (with a message naming the violated
contract) and no frame reaches `conn.send`. -/
theorem sendToolResponse_requires_functionResponses (apiClient : ApiClient) :
    sendToolResponse apiClient none = .error "Tool response parameters are required." ∧
    sendToolResponse apiClient (some (.jarr [])) = .error "functionResponses is required." :=
  ⟨rfl, rfl⟩

/-- C3: on either variant, a successful `Live.connect` performs, in order:
(Vertex only) auth-header injection, websocket creation at the computed
URL, `conn.connect()`, the await of the transport's open signal, then a
single `conn.send` whose frame is the setup envelope — the converter output
for the fully-resolved parameters with the top-level `config` key deleted —
and only then returns the `Session`. -/
theorem connect_setup_frame_first (apiClient : ApiClient)
    (tM : ApiClient → String → String)
    (cv cm : ApiClient → LiveConnectParameters → List (String × JValue))
    (p : LiveConnectParameters) :
    (connectModel apiClient tM cv cm p).trace =
      (if apiClient.vertexai then [ConnectEvent.addAuthHeaders] else [])
        ++ [ConnectEvent.connCreate (connectUrl apiClient), ConnectEvent.connConnect,
            ConnectEvent.awaitOpen,
            ConnectEvent.send (stringify (.jobj
              ((if apiClient.vertexai then
                  cv apiClient (connectModel apiClient tM cv cm p).resolvedParams
                else
                  cm apiClient (connectModel apiClient tM cv cm p).resolvedParams).filter
                (fun kv => kv.1 != "config")))),
            ConnectEvent.retSession] := by
  cases h : apiClient.vertexai <;> simp [connectModel, h]

/-- C4: on the direct-API variant, the websocket is created at
`\x7bwsBase\x7d/ws/google.ai.generativelanguage.\x7bapiVersion\x7d.GenerativeService.\x7bmethod\x7d?\x7bkeyParam\x7d=\x7bapiKey\x7d`,
where the method/key-parameter pair is
`BidiGenerateContentConstrained`/`access_token` exactly for keys with
prefix `auth_tokens/` and `BidiGenerateContent`/`key` otherwise; with no
configured key the bare websocket base URL is used. -/
theorem connect_mldev_url (apiClient : ApiClient) (h : apiClient.vertexai = false) :
    (∀ k, apiClient.apiKey = some k → k ≠ "" →
      connectUrl apiClient =
        apiClient.websocketBaseUrl ++ "/ws/google.ai.generativelanguage."
          ++ apiClient.apiVersion ++ ".GenerativeService."
          ++ (if jsStartsWith k "auth_tokens/" then "BidiGenerateContentConstrained"
              else "BidiGenerateContent")
          ++ "?" ++ (if jsStartsWith k "auth_tokens/" then "access_token" else "key")
          ++ "=" ++ k) ∧
    (apiClient.apiKey = none → connectUrl apiClient = apiClient.websocketBaseUrl) ∧
    (∀ tM cv cm p,
      createdUrls (connectModel apiClient tM cv cm p).trace = [connectUrl apiClient]) := by
  refine ⟨?_, ?_, ?_⟩
  · intro k hk hne
    have htr : (k != "") = true := by
      simpa using hne
    cases hs : jsStartsWith k "auth_tokens/" <;>
      simp [connectUrl, mldevConnectUrl, h, jsTruthyStr, hk, htr, hs]
  · intro hk
    simp [connectUrl, mldevConnectUrl, h, hk, jsTruthyStr]
  · intro tM cv cm p
    cases hvx : apiClient.vertexai
    · simp [connectModel, createdUrls, hvx]
    · rw [hvx] at h; cases h

/-- C4 (witness): an `auth_tokens/` key selects the constrained method and
`access_token` parameter; the resulting URL at a concrete client. -/
theorem connect_mldev_url_witness :
    connectUrl { vertexai := false, apiKey := some "auth_tokens/tok", project := "proj",
                 location := "loc", apiVersion := "v1alpha",
                 websocketBaseUrl := "wss://base" }
      = "wss://base/ws/google.ai.generativelanguage.v1alpha.GenerativeService.BidiGenerateContentConstrained?access_token=auth_tokens/tok" := by
  have h := (connect_mldev_url
    { vertexai := false, apiKey := some "auth_tokens/tok", project := "proj",
      location := "loc", apiVersion := "v1alpha", websocketBaseUrl := "wss://base" }
    rfl).1 "auth_tokens/tok" rfl (by decide)
  exact h.trans (by decide)

/-- C5: on the Vertex variant, when the shared model transform yields a
name with prefix `publishers/`, the model placed in the parameters the
setup envelope is built from is that name qualified by the configured
project and location. -/
theorem connect_vertex_qualifies_publishers_model (apiClient : ApiClient)
    (tM : ApiClient → String → String)
    (cv cm : ApiClient → LiveConnectParameters → List (String × JValue))
    (p : LiveConnectParameters)
    (hv : apiClient.vertexai = true)
    (hp : jsStartsWith (tM apiClient p.model) "publishers/" = true) :
    (connectModel apiClient tM cv cm p).resolvedParams.model =
      "projects/" ++ apiClient.project ++ "/locations/" ++ apiClient.location ++ "/"
        ++ tM apiClient p.model := by
  simp [connectModel, hv, hp]

/-- C5 (witness): a bare `publishers/...` model on the sample Vertex client
becomes the fully-qualified resource path. -/
theorem connect_vertex_qualifies_publishers_model_witness :
    (connectModel sampleVertexClient (fun _ m => m) (fun _ _ => []) (fun _ _ => [])
      { model := "publishers/google/models/g", config := none,
        callbacks := 0 }).resolvedParams.model
      = "projects/proj/locations/loc/publishers/google/models/g" := by
  have h := connect_vertex_qualifies_publishers_model sampleVertexClient
    (fun _ m => m) (fun _ _ => []) (fun _ _ => [])
    { model := "publishers/google/models/g", config := none, callbacks := 0 }
    rfl (by decide)
  exact h.trans (by decide)

/-- C6: `sendClientContent` with no argument sends exactly
`\x7b"clientContent":\x7b"turnComplete":true\x7d\x7d`, and with
`\x7bturnComplete: false\x7d` sends exactly
`\x7b"clientContent":\x7b"turnComplete":false\x7d\x7d`, with no `turns` key
in either frame. -/
theorem sendClientContent_turn_complete_defaults (conv : LiveConverters)
    (apiClient : ApiClient) :
    sendClientContent conv apiClient none
      = .ok "\x7b\"clientContent\":\x7b\"turnComplete\":true\x7d\x7d" ∧
    sendClientContent conv apiClient
        (some { turns := none, turnComplete := some (some false) })
      = .ok "\x7b\"clientContent\":\x7b\"turnComplete\":false\x7d\x7d" :=
  ⟨rfl, rfl⟩

/-- C7: on the Vertex variant, when the caller specified no
`responseModalities`, the configuration the setup envelope is built from
carries `responseModalities = ["AUDIO"]`; on the direct-API variant the
caller's `responseModalities` are passed through unchanged. -/
theorem connect_vertex_default_response_modalities (apiClient : ApiClient)
    (tM : ApiClient → String → String)
    (cv cm : ApiClient → LiveConnectParameters → List (String × JValue))
    (p : LiveConnectParameters) :
    (apiClient.vertexai = true →
      (p.config.bind (fun c => c.responseModalities)) = none →
      ((connectModel apiClient tM cv cm p).resolvedParams.config.bind
        (fun c => c.responseModalities)) = some ["AUDIO"]) ∧
    (apiClient.vertexai = false →
      ((connectModel apiClient tM cv cm p).resolvedParams.config.bind
        (fun c => c.responseModalities)) = p.config.bind (fun c => c.responseModalities)) := by
  constructor
  · intro hv hrm
    cases hc : p.config with
    | none => simp [connectModel, hv, hc]
    | some c =>
      have hcrm : c.responseModalities = none := by
        rw [hc] at hrm
        simpa using hrm
      cases ht : c.tools with
      | none => simp [connectModel, hv, hc, hcrm, ht]
      | some ts =>
        cases ts with
        | nil => simp [connectModel, hv, hc, hcrm, ht]
        | cons t rest => simp [connectModel, hv, hc, hcrm, ht]
  · intro hm
    cases hc : p.config with
    | none => simp [connectModel, hm, hc]
    | some c =>
      cases ht : c.tools with
      | none => simp [connectModel, hm, hc, ht]
      | some ts =>
        cases ts with
        | nil => simp [connectModel, hm, hc, ht]
        | cons t rest => simp [connectModel, hm, hc, ht]

/-- C7 (witness): on the sample Vertex client with no config at all, the
resolved configuration carries `responseModalities = ["AUDIO"]`. -/
theorem connect_vertex_default_response_modalities_witness :
    ((connectModel sampleVertexClient (fun _ m => m) (fun _ _ => []) (fun _ _ => [])
      { model := "m", config := none, callbacks := 0 }).resolvedParams.config.bind
        (fun c => c.responseModalities)) = some ["AUDIO"] :=
  (connect_vertex_default_response_modalities sampleVertexClient
    (fun _ m => m) (fun _ _ => []) (fun _ _ => [])
    { model := "m", config := none, callbacks := 0 }).1 rfl rfl

/-- C8 (counterexample): the claim as stated fails. With message 0 a Blob
payload and message 1 a text payload, the schedule that delivers both
before the blob read completes invokes the callback in order 1, 0. -/
theorem dispatch_blob_reorder_counterexample :
    (dispatchRun (fun i => if i = 0 then Payload.blobData "a" else Payload.textData "b")
      [WsEvent.deliver 0, WsEvent.deliver 1, WsEvent.resolveBlob 0]).callbackLog = [1, 0]
    ∧ ([1, 0] : List Nat) ≠ [0, 1] := by
  decide

/-- C8 (amended): the user callback is invoked in transport-delivery order
whenever no delivered payload is a Blob (text and `ArrayBuffer` payloads
are dispatched synchronously); a Blob payload's callback can be delayed
past later frames. -/
theorem dispatch_order_preserved_without_blob (payloadOf : Nat → Payload)
    (events : List WsEvent)
    (h : ∀ i, WsEvent.deliver i ∈ events → (payloadOf i).isBlob = false) :
    (dispatchRun payloadOf events).callbackLog = deliveredIndices events := by
  have := dispatch_foldl_no_blob payloadOf events ⟨[], []⟩ rfl h
  simpa [dispatchRun] using this

/-- C8 (witness): three text frames delivered in order 0, 1, 2 invoke the
callback in order 0, 1, 2. -/
theorem dispatch_order_preserved_without_blob_witness :
    (dispatchRun (fun _ => Payload.textData "x")
      [WsEvent.deliver 0, WsEvent.deliver 1, WsEvent.deliver 2]).callbackLog
      = [0, 1, 2] := by
  have h := dispatch_order_preserved_without_blob (fun _ => Payload.textData "x")
    [WsEvent.deliver 0, WsEvent.deliver 1, WsEvent.deliver 2]
    (fun _ _ => rfl)
  exact h.trans (by decide)

/-- C9: a `GoogleGenAI` constructor call whose options carry an API key
together with an explicit project or location throws the mutual-exclusion
error immediately, regardless of the environment, and no client is
produced. -/
theorem construct_rejects_project_location_with_key (options : GoogleGenAIOptions)
    (env : EnvVars)
    (hk : jsTruthyStr options.apiKey = true)
    (hpl : jsTruthyStr options.project = true ∨ jsTruthyStr options.location = true) :
    GoogleGenAI.construct options env =
      .error "Project/location and API key are mutually exclusive in the client initializer." := by
  rcases hpl with h | h <;> simp [GoogleGenAI.construct, h, hk]

/-- C9 (witness): an explicit API key together with an explicit project is
rejected. -/
theorem construct_rejects_project_location_with_key_witness :
    GoogleGenAI.construct
      { vertexai := none, apiKey := some "key-123", project := some "proj",
        location := none, apiUrl := none, apiVersion := none,
        hasGoogleAuthCredentials := false }
      { useVertexai := none, googleApiKey := none, geminiApiKey := none,
        googleBaseApiUrl := none, geminiBaseApiUrl := none, cloudProject := none,
        cloudLocation := none } =
      .error "Project/location and API key are mutually exclusive in the client initializer." :=
  construct_rejects_project_location_with_key _ _ (by decide) (Or.inl (by decide))

/-- C10: `Live.connect` leaves the caller's `params` with: `responseModalities`
written to `["AUDIO"]` (creating `params.config` when absent) on the Vertex
variant when the caller set none; `params.config.tools` overwritten with
the resolved tool list whenever at least one tool is configured; and the
`model` and `callbacks` fields unchanged. -/
theorem connect_mutates_caller_params (apiClient : ApiClient)
    (tM : ApiClient → String → String)
    (cv cm : ApiClient → LiveConnectParameters → List (String × JValue))
    (p : LiveConnectParameters) :
    (apiClient.vertexai = true →
      (p.config.bind (fun c => c.responseModalities)) = none →
      ((connectModel apiClient tM cv cm p).finalParams.config.bind
        (fun c => c.responseModalities)) = some ["AUDIO"]) ∧
    (∀ ts, (p.config.bind (fun c => c.tools)) = some ts → ts ≠ [] →
      ((connectModel apiClient tM cv cm p).finalParams.config.bind
        (fun c => c.tools)) = some ((ts.map convertTool).map ToolUnion.staticTool)) ∧
    (connectModel apiClient tM cv cm p).finalParams.model = p.model ∧
    (connectModel apiClient tM cv cm p).finalParams.callbacks = p.callbacks := by
  refine ⟨?_, ?_, ?_⟩
  · intro hv hrm
    cases hc : p.config with
    | none => simp [connectModel, hv, hc]
    | some c =>
      have hcrm : c.responseModalities = none := by
        rw [hc] at hrm
        simpa using hrm
      cases ht : c.tools with
      | none => simp [connectModel, hv, hc, hcrm, ht]
      | some ts =>
        cases ts with
        | nil => simp [connectModel, hv, hc, hcrm, ht]
        | cons t rest => simp [connectModel, hv, hc, hcrm, ht]
  · intro ts hts hne
    cases hc : p.config with
    | none => rw [hc] at hts; cases hts
    | some c =>
      have hct : c.tools = some ts := by
        rw [hc] at hts
        simpa using hts
      cases ts with
      | nil => cases hne rfl
      | cons t rest =>
        cases hv : apiClient.vertexai <;>
          cases hcrm : c.responseModalities <;>
            simp [connectModel, hv, hc, hct, hcrm]
  · rcases p with ⟨pm, pc, pcb⟩
    show _ ∧ _
    cases hv : apiClient.vertexai
    · cases pc with
      | none => simp [connectModel, hv]
      | some c =>
        rcases c with ⟨rm, tl, gc⟩
        rcases tl with _ | (_ | ⟨t, ts⟩) <;> simp [connectModel, hv]
    · cases pc with
      | none => simp [connectModel, hv]
      | some c =>
        rcases c with ⟨rm, tl, gc⟩
        rcases rm with _ | rml <;>
          rcases tl with _ | (_ | ⟨t, ts⟩) <;> simp [connectModel, hv]

/-- C10 (witness): on the sample Vertex client with one callable and one
static tool and no response modalities, the caller's config ends with
`responseModalities = ["AUDIO"]` and the resolved tool list, while `model`
and `callbacks` are untouched. -/
theorem connect_mutates_caller_params_witness :
    ((connectModel sampleVertexClient (fun _ m => m) (fun _ _ => []) (fun _ _ => [])
      { model := "m",
        config := some { responseModalities := none,
                         tools := some [ToolUnion.callableTool (.jobj [("x", .jnum 1)]),
                                        ToolUnion.staticTool .jnull],
                         generationConfig := none },
        callbacks := 7 }).finalParams.config.bind
        (fun c => c.responseModalities)) = some ["AUDIO"] ∧
    ((connectModel sampleVertexClient (fun _ m => m) (fun _ _ => []) (fun _ _ => [])
      { model := "m",
        config := some { responseModalities := none,
                         tools := some [ToolUnion.callableTool (.jobj [("x", .jnum 1)]),
                                        ToolUnion.staticTool .jnull],
                         generationConfig := none },
        callbacks := 7 }).finalParams.config.bind
        (fun c => c.tools))
      = some [ToolUnion.staticTool (.jobj [("x", .jnum 1)]), ToolUnion.staticTool .jnull] := by
  have h := connect_mutates_caller_params sampleVertexClient
    (fun _ m => m) (fun _ _ => []) (fun _ _ => [])
    { model := "m",
      config := some { responseModalities := none,
                       tools := some [ToolUnion.callableTool (.jobj [("x", .jnum 1)]),
                                      ToolUnion.staticTool .jnull],
                       generationConfig := none },
      callbacks := 7 }
  refine ⟨h.1 rfl rfl, ?_⟩
  have h2 := h.2.1 [ToolUnion.callableTool (.jobj [("x", .jnum 1)]),
                    ToolUnion.staticTool .jnull] rfl (List.cons_ne_nil _ _)
  simpa [convertTool] using h2

end JsGenai
